import Mathlib

/-!
Shallow embedding of the upload-area "Active-Scope Guard" of this repository:
the upload service helpers (`UploadService.ts`: `customUploadRequest`,
`checkKnowledgeBaseNameExists`, `fetchKnowledgeBaseInfo`, `validateFileType`)
and the scope-change effect of the `UploadArea` component and `handleChange`
file-list handler. Network transports, refs and callbacks are made explicit:
a mutable ref read is a `String` argument carrying the value of the ref at
the instant of the read, callback invocations and `message.error` notifications
become events in a result list, and component `useState` cells become fields
of an explicit state record.
-/

namespace Nexent

/-! ### Files and the client-side file-type gate (`UploadService.ts`, `validateFileType`) -/

/-- A browser `File` as seen by `validateFileType`: its declared media type
(`file.type`, possibly empty) and its filename. -/
structure BrowserFile where
  type : String
  name : String
deriving DecidableEq, Repr

/-- The `validTypes` list of `validateFileType`, verbatim from the source. -/
def validTypes : List String :=
  [ "application/pdf",
    "application/vnd.openxmlformats-officedocument.wordprocessingml.document",
    "application/vnd.openxmlformats-officedocument.presentationml.presentation",
    "application/vnd.openxmlformats-officedocument.spreadsheetml.sheet",
    "text/markdown",
    "text/plain",
    "text/csv",
    "application/csv" ]

/-- JavaScript `String.prototype.toLowerCase` on the character sequence of a
string (ASCII case folding, as the filenames at issue use). -/
def lowerStr (s : String) : String := ⟨s.data.map Char.toLower⟩

/-- JavaScript `String.prototype.endsWith`: does `s` end with `post`? -/
def strEndsWith (s post : String) : Bool := post.data.isSuffixOf s.data

/-- Result of the file-type gate: whether the file is accepted, and how many
`message.error` notifications were produced. -/
structure GateResult where
  accepted : Bool
  errorCount : Nat
deriving DecidableEq, Repr

/-- Embedding of `validateFileType` (`UploadService.ts` lines 106-139): first
check the declared media type against `validTypes`; if that fails, fall back
to the lowercased filename suffix, accepting only `.md`, `.markdown` and
`.csv`; a rejection emits one `message.error` notification and returns false. -/
def validateFileType (file : BrowserFile) : GateResult :=
  let isValidType0 := validTypes.contains file.type
  let isValidType :=
    if isValidType0 then true
    else
      let name := lowerStr file.name
      strEndsWith name ".md" || strEndsWith name ".markdown" ||
        strEndsWith name ".csv"
  if !isValidType then { accepted := false, errorCount := 1 }
  else { accepted := true, errorCount := 0 }

/-! ### Name-existence check (`UploadService.ts`, `checkKnowledgeBaseNameExists`) -/

/-- Result of `checkKnowledgeBaseNameExists`: the boolean returned to the
caller and how many errors were logged to the console. -/
structure NameCheckResult where
  exists_ : Bool
  loggedErrors : Nat
deriving DecidableEq, Repr

/-- Embedding of `checkKnowledgeBaseNameExists` (`UploadService.ts` lines
70-79). The underlying service call either resolves to a boolean or throws;
a thrown error is caught, logged, and the function returns `false`. -/
def checkKnowledgeBaseNameExists (serviceCall : Except String Bool) : NameCheckResult :=
  match serviceCall with
  | Except.ok b => { exists_ := b, loggedErrors := 0 }
  | Except.error _ => { exists_ := false, loggedErrors := 1 }

/-! ### Upload transport adapter (`UploadService.ts`, `customUploadRequest`) -/

/-- Outcome of the `fetch` network call inside `customUploadRequest`:
the response came back OK (and its JSON body parsed), the response came back
with a non-OK status, or the call threw an exception. -/
inductive Transport
  | ok
  | httpError
  | exn
deriving DecidableEq, Repr

/-- Observable events of one `customUploadRequest` run: the `onSuccess`
callback, the `onError` callback with its error message, and a user-visible
`message.error` notification. -/
inductive UploadEvent
  | onSuccessEv
  | onErrorEv (msg : String)
  | messageError (msg : String)
deriving DecidableEq, Repr

/-- The `onError` message used by both scope-switch guards in
`customUploadRequest`. -/
def errScopeSwitched : String := "知识库已切换，请重新上传"

/-- The `message.error` text of the scope-switch guards, for a given file. -/
def msgScopeSwitched (fileName : String) : String :=
  "文件 " ++ fileName ++ " 上传失败：知识库已切换"

/-- The `onError` message of a plain upload failure in `customUploadRequest`. -/
def errUploadFailed : String := "上传失败"

/-- The `message.error` text of a plain upload failure, for a given file. -/
def msgUploadFailed (fileName : String) : String :=
  "文件 " ++ fileName ++ " 上传失败"

/-- Embedding of `customUploadRequest` (`UploadService.ts` lines 17-67).
`refBefore` is the value of `currentKnowledgeBaseRef.current` when the
pre-`fetch` guard reads it; `refAfter` is its value when control resumes
after the `fetch` settles (the post-`fetch` guard and the `catch` handler
read it then). The returned list holds the callback and notification events
in the order the source emits them:
pre-guard mismatch (and not creating) fails with the scope-switched error;
otherwise the `fetch` runs; on an exception the `catch` reports a failure
only when the scope still matches or creating-mode holds; on a returned
response the post-guard re-checks the scope, then `response.ok` decides
between `onSuccess` and the failure pair. -/
def customUploadRequest (fileName : String) (isCreatingMode : Bool)
    (newKnowledgeBaseName indexName : String) (refBefore : String)
    (transport : Transport) (refAfter : String) : List UploadEvent :=
  let effectiveIndexName := if isCreatingMode then newKnowledgeBaseName else indexName
  if effectiveIndexName != refBefore && !isCreatingMode then
    [UploadEvent.onErrorEv errScopeSwitched,
     UploadEvent.messageError (msgScopeSwitched fileName)]
  else
    match transport with
    | Transport.exn =>
        if effectiveIndexName == refAfter || isCreatingMode then
          [UploadEvent.onErrorEv errUploadFailed,
           UploadEvent.messageError (msgUploadFailed fileName)]
        else []
    | t =>
        if effectiveIndexName != refAfter && !isCreatingMode then
          [UploadEvent.onErrorEv errScopeSwitched,
           UploadEvent.messageError (msgScopeSwitched fileName)]
        else
          match t with
          | Transport.ok => [UploadEvent.onSuccessEv]
          | _ =>
              [UploadEvent.onErrorEv errUploadFailed,
               UploadEvent.messageError (msgUploadFailed fileName)]

/-- True when the event list holds an `onError` callback invocation. -/
def hasOnError (evs : List UploadEvent) : Bool :=
  evs.any fun e =>
    match e with
    | UploadEvent.onErrorEv _ => true
    | _ => false

/-- True when the event list holds a user-visible `message.error`. -/
def hasMessageError (evs : List UploadEvent) : Bool :=
  evs.any fun e =>
    match e with
    | UploadEvent.messageError _ => true
    | _ => false

/-! ### Scope resolution (`UploadService.ts`, `fetchKnowledgeBaseInfo`) -/

/-- Observable events of one `fetchKnowledgeBaseInfo` run: the `onSuccess`
callback, the `onError` callback, and a user-visible `message.error`
(the latter two only ever emitted from the `catch` handler). -/
inductive FetchEvent
  | success
  | failure
  | userError
deriving DecidableEq, Repr

/-- Embedding of `fetchKnowledgeBaseInfo` (`UploadService.ts` lines 82-103).
`aborted` is `abortController.signal.aborted` and `currentRef` the value of
`currentKnowledgeBaseRef.current`, both read when the completion runs. The
`try` body performs no network call and cannot throw (it only guards and
invokes `onSuccess`), so the `catch` handler — the only emitter of
`FetchEvent.failure` and `FetchEvent.userError` — is unreachable. -/
def fetchKnowledgeBaseInfo (indexName : String) (aborted : Bool)
    (currentRef : String) : List FetchEvent :=
  if !aborted && indexName == currentRef then [FetchEvent.success] else []

/-! ### The `UploadArea` component (src/unnamed/part_000) -/

/-- Upload lifecycle status of an antd `UploadFile`. -/
inductive FileStatus
  | uploading
  | done
  | error
  | removed
deriving DecidableEq, Repr

/-- An antd `UploadFile` as the component consumes it: a name, an optional
status, and the optional raw `originFileObj` (identified here by a token). -/
structure UploadEntry where
  name : String
  status : Option FileStatus
  originFileObj : Option String
deriving DecidableEq, Repr

/-- The component state of `UploadArea`: the four `useState` cells, the
`currentKnowledgeBaseRef` ref, the `pendingRequestRef` ref (holding the id
of the current `AbortController`, if any), a counter allocating fresh
request ids, and the ghost list `live` of the ids of resolution requests
that have been started and not yet aborted. -/
structure GuardState where
  fileList : List UploadEntry
  nameExists : Bool
  isLoading : Bool
  isKnowledgeBaseReady : Bool
  currentKnowledgeBase : String
  pending : Option Nat
  nextId : Nat
  live : List Nat
deriving DecidableEq, Repr

/-- Initial state of the component: empty list, flags false, empty scope ref,
no pending request. -/
def initialGuardState : GuardState :=
  { fileList := []
    nameExists := false
    isLoading := false
    isKnowledgeBaseReady := false
    currentKnowledgeBase := ""
    pending := none
    nextId := 0
    live := [] }

/-- Embedding of the scope-change effect of `UploadArea` (part_000 lines
68-118), run when the component sees scope `indexName` in mode
`isCreatingMode`. Returns the new state together with the number of
resolution requests started by this transition. If the scope is unchanged
the effect returns early. Otherwise it aborts and discards the pending
request, resets all states (`resetAllStates`: empty file list, name flag
false, loading true, ready false), updates the scope ref, and then either
short-circuits to ready (empty scope or creating-mode, no request) or
allocates a fresh `AbortController` and starts exactly one resolution
request. -/
def onScopeChange (s : GuardState) (indexName : String) (isCreatingMode : Bool) :
    GuardState × Nat :=
  if indexName == s.currentKnowledgeBase then (s, 0)
  else
    let liveAfterAbort :=
      match s.pending with
      | some id => s.live.filter fun x => x != id
      | none => s.live
    let s1 : GuardState :=
      { s with
        fileList := []
        nameExists := false
        isLoading := true
        isKnowledgeBaseReady := false
        currentKnowledgeBase := indexName
        pending := none
        live := liveAfterAbort }
    if indexName == "" || isCreatingMode then
      ({ s1 with isKnowledgeBaseReady := true, isLoading := false }, 0)
    else
      ({ s1 with
          pending := some s.nextId
          nextId := s.nextId + 1
          live := liveAfterAbort ++ [s.nextId] }, 1)

/-- One scope input delivered to the component: the externally supplied
scope identifier and the creating-mode flag. -/
structure ScopeChange where
  indexName : String
  isCreatingMode : Bool
deriving DecidableEq, Repr

/-- Run a sequence of scope changes from the initial component state. -/
def runScopeChanges (changes : List ScopeChange) : GuardState :=
  changes.foldl (fun s c => (onScopeChange s c.indexName c.isCreatingMode).1)
    initialGuardState

/-- Effect of one `fetchKnowledgeBaseInfo` event on the component state, as
wired in part_000 lines 101-108: `onSuccess` sets ready and clears loading,
`onError` clears ready and loading, a user notification leaves state alone. -/
def applyFetchEvent (s : GuardState) : FetchEvent → GuardState
  | FetchEvent.success => { s with isKnowledgeBaseReady := true, isLoading := false }
  | FetchEvent.failure => { s with isKnowledgeBaseReady := false, isLoading := false }
  | FetchEvent.userError => s

/-- A resolution completion for scope `indexName` arriving at the component
in state `s`, with abort flag `aborted`: the events `fetchKnowledgeBaseInfo`
emits against the scope ref read at arrival time, folded into the state. -/
def resolutionComplete (s : GuardState) (indexName : String) (aborted : Bool) :
    GuardState :=
  (fetchKnowledgeBaseInfo indexName aborted s.currentKnowledgeBase).foldl
    applyFetchEvent s

/-- Count of user-visible error notifications a resolution completion emits. -/
def resolutionUserErrors (indexName : String) (aborted : Bool)
    (currentRef : String) : Nat :=
  (fetchKnowledgeBaseInfo indexName aborted currentRef).countP
    fun e => e == FetchEvent.userError

/-- Observable events of one `handleChange` run: the parent `onUpload`
upload-complete callback and the `onFileSelect` callback with the raw files
forwarded. -/
inductive ChangeEvent
  | uploadComplete
  | fileSelect (files : List String)
deriving DecidableEq, Repr

/-- True when some entry of the list has status `uploading` (the
`some` status checks of `handleChange`). -/
def hasUploading (l : List UploadEntry) : Bool :=
  l.any fun f => f.status == some FileStatus.uploading

/-- Count of `uploadComplete` events in a `handleChange` event list. -/
def countUploadComplete : List ChangeEvent → Nat
  | [] => 0
  | ChangeEvent.uploadComplete :: rest => countUploadComplete rest + 1
  | _ :: rest => countUploadComplete rest

/-- Embedding of `handleChange` (part_000 lines 155-183). `prev` is
`prevFileListRef.current` and `newList` the incoming `fileList`; the other
arguments are the props and ref the closure reads. If neither creating-mode
holds nor the prop scope matches the ref, the change is discarded entirely.
Otherwise the file list is replaced, the upload-completion transition
(some entry was `uploading` before, the new list is non-empty with none
`uploading`) fires `onUpload` once, and the raw file objects present are
forwarded to `onFileSelect` when there is at least one. Returns the stored
file list and the emitted events in order. -/
def handleChange (isCreatingMode : Bool) (indexName currentRef : String)
    (prev newList : List UploadEntry) : List UploadEntry × List ChangeEvent :=
  if isCreatingMode || indexName == currentRef then
    let uploadWasInProgress := hasUploading prev
    let uploadIsNowFinished := decide (newList.length > 0) && !hasUploading newList
    let completeEvents :=
      if uploadWasInProgress && uploadIsNowFinished then
        [ChangeEvent.uploadComplete]
      else []
    let files := newList.filterMap fun f => f.originFileObj
    let selectEvents :=
      if decide (files.length > 0) then [ChangeEvent.fileSelect files] else []
    (newList, completeEvents ++ selectEvents)
  else
    (prev, [])

/-- Ownership invariant of the request bookkeeping: every live (started and
not yet aborted) resolution request is the one held by `pendingRequestRef` —
so the live set is empty, or exactly the singleton of the pending id. -/
def PendingOwnsLive (s : GuardState) : Prop :=
  s.live = [] ∨ ∃ id, s.pending = some id ∧ s.live = [id]

/-! ### Theorems -/

/-- Claim C7 (corrected): the gate accepts exactly the files whose declared media
type is one of the eight listed types or whose lowercased filename ends in
`.md`, `.markdown` or `.csv` — the suffix fallback covers only those three
suffixes, not the suffixes of the other accepted types; a rejection produces
exactly one user-visible notification, an acceptance none. -/
theorem c7_file_gate_characterization (f : BrowserFile) :
    ((validateFileType f).accepted = true ↔
      (f.type = "application/pdf" ∨
       f.type = "application/vnd.openxmlformats-officedocument.wordprocessingml.document" ∨
       f.type = "application/vnd.openxmlformats-officedocument.presentationml.presentation" ∨
       f.type = "application/vnd.openxmlformats-officedocument.spreadsheetml.sheet" ∨
       f.type = "text/markdown" ∨
       f.type = "text/plain" ∨
       f.type = "text/csv" ∨
       f.type = "application/csv" ∨
       strEndsWith (lowerStr f.name) ".md" = true ∨
       strEndsWith (lowerStr f.name) ".markdown" = true ∨
       strEndsWith (lowerStr f.name) ".csv" = true)) ∧
    (validateFileType f).errorCount =
      (if (validateFileType f).accepted then 0 else 1) := by
  by_cases hc : f.type ∈ validTypes <;>
    cases h1 : strEndsWith (lowerStr f.name) ".md" <;>
      cases h2 : strEndsWith (lowerStr f.name) ".markdown" <;>
        cases h3 : strEndsWith (lowerStr f.name) ".csv" <;>
          simp_all [validateFileType, validTypes]

/-- Claim C7 (counterexample to the claim as stated): a PDF file whose declared
media type is empty is not rescued by the suffix fallback — it is rejected
with one notification, although PDF is an accepted type. -/
theorem c7_empty_type_pdf_rejected :
    validateFileType { type := "", name := "report.pdf" } =
      { accepted := false, errorCount := 1 } := by decide

/-- Claim C8: `text/csv` is accepted by media type; an empty media type with a
`.md` filename is accepted via the suffix fallback; `image/png` with a name
ending in none of the fallback suffixes is rejected with exactly one error
notification. -/
theorem c8_gate_examples :
    validateFileType { type := "text/csv", name := "data.bin" } =
      { accepted := true, errorCount := 0 } ∧
    validateFileType { type := "", name := "notes.md" } =
      { accepted := true, errorCount := 0 } ∧
    validateFileType { type := "image/png", name := "photo.png" } =
      { accepted := false, errorCount := 1 } := by decide

/-- Claim C3: in non-creating mode, whenever the target scope differs from the
current scope ref — at the pre-call guard, or at the post-call guard after
the network call returned — the adapter fails with the scope-switched error
and never invokes `onSuccess`, whatever the transport outcome was. -/
theorem c3_scope_switch_guard (fileName newName idx refB refA : String)
    (transport : Transport)
    (h : idx ≠ refB ∨ (transport ≠ Transport.exn ∧ idx ≠ refA)) :
    UploadEvent.onErrorEv errScopeSwitched ∈
        customUploadRequest fileName false newName idx refB transport refA ∧
    UploadEvent.onSuccessEv ∉
        customUploadRequest fileName false newName idx refB transport refA := by
  rcases h with h | ⟨ht, h⟩
  · constructor <;> simp [customUploadRequest, h]
  · cases transport with
    | exn => exact absurd rfl ht
    | ok =>
        by_cases hb : idx = refB
        · subst hb
          constructor <;> simp [customUploadRequest, h]
        · constructor <;> simp [customUploadRequest, hb]
    | httpError =>
        by_cases hb : idx = refB
        · subst hb
          constructor <;> simp [customUploadRequest, h]
        · constructor <;> simp [customUploadRequest, hb]

/-- Claim C3 witness: a concrete pre-call scope mismatch with an OK transport
still yields the scope-switched error and no success callback. -/
theorem c3_scope_switch_guard_witness :
    UploadEvent.onErrorEv errScopeSwitched ∈
        customUploadRequest "a.txt" false "" "kb1" "kb2" Transport.ok "kb2" ∧
    UploadEvent.onSuccessEv ∉
        customUploadRequest "a.txt" false "" "kb1" "kb2" Transport.ok "kb2" :=
  c3_scope_switch_guard "a.txt" "" "kb1" "kb2" "kb2" Transport.ok
    (Or.inl (by decide))

/-- Claim C4 (counterexample to the claim as stated): when the network call throws
and the scope has switched mid-flight (non-creating mode), the adapter emits
no event at all — in particular the failure is not reported through
`onError`, contradicting the claim that every transport failure or exception
is reported via the error callback. -/
theorem c4_exception_after_switch_is_fully_silent :
    customUploadRequest "a.txt" false "" "kb1" "kb1" Transport.exn "kb2" = [] := by
  decide

/-- Claim C4 (corrected): for attempts that pass the pre-call guard and end in a
transport failure or an exception, the `onError` callback and the
user-visible notification always travel together; a non-OK response always
reports (as a scope-switched error if the scope changed mid-flight, as a
plain upload failure otherwise); after an exception both the callback and
the notification fire exactly when the scope still matches at failure time
or creating-mode holds — otherwise both are suppressed; `onSuccess` is never
invoked. -/
theorem c4_failure_reporting (fileName : String) (creating : Bool)
    (newName idx refB refA : String) (transport : Transport)
    (evs : List UploadEvent)
    (hevs : evs = customUploadRequest fileName creating newName idx refB transport refA)
    (hpre : ((if creating then newName else idx) != refB) = false ∨ creating = true)
    (ht : transport = Transport.httpError ∨ transport = Transport.exn) :
    hasOnError evs = hasMessageError evs ∧
    (transport = Transport.httpError → hasOnError evs = true) ∧
    (transport = Transport.exn →
      hasOnError evs = (((if creating then newName else idx) == refA) || creating)) ∧
    UploadEvent.onSuccessEv ∉ evs := by
  subst hevs
  cases creating with
  | false =>
      have hb : idx = refB := by
        rcases hpre with hpre | hpre
        · simpa using hpre
        · simp at hpre
      subst hb
      rcases ht with ht | ht <;> subst ht
      · by_cases ha : idx = refA <;>
          simp [customUploadRequest, ha, hasOnError, hasMessageError]
      · by_cases ha : idx = refA <;>
          simp [customUploadRequest, ha, hasOnError, hasMessageError]
  | true =>
      rcases ht with ht | ht <;> subst ht <;>
        simp [customUploadRequest, hasOnError, hasMessageError]

/-- Claim C4 witness: a concrete non-OK response with an unchanged scope reports
through `onError` together with a user-visible notification, and does not
invoke `onSuccess`. -/
theorem c4_failure_reporting_witness :
    hasOnError (customUploadRequest "a.txt" false "" "kb1" "kb1" Transport.httpError "kb1") =
      hasMessageError (customUploadRequest "a.txt" false "" "kb1" "kb1" Transport.httpError "kb1") ∧
    (Transport.httpError = Transport.httpError →
      hasOnError (customUploadRequest "a.txt" false "" "kb1" "kb1" Transport.httpError "kb1") = true) ∧
    (Transport.httpError = Transport.exn →
      hasOnError (customUploadRequest "a.txt" false "" "kb1" "kb1" Transport.httpError "kb1") =
        (((if false then "" else "kb1") == "kb1") || false)) ∧
    UploadEvent.onSuccessEv ∉
      customUploadRequest "a.txt" false "" "kb1" "kb1" Transport.httpError "kb1" :=
  c4_failure_reporting "a.txt" false "" "kb1" "kb1" "kb1" Transport.httpError _
    rfl (Or.inl (by decide)) (Or.inl rfl)

/-- Claim C9: the name-existence check is fail-open — when the underlying service
call throws, the error is logged and the function returns `false` instead of
propagating the failure. -/
theorem c9_name_check_fail_open (e : String) :
    checkKnowledgeBaseNameExists (Except.error e) =
      { exists_ := false, loggedErrors := 1 } := rfl

/-- The scope-change effect preserves the ownership invariant: it aborts and
discards the pending request before starting at most one new one. -/
theorem pendingOwnsLive_step (s : GuardState) (idx : String) (creating : Bool)
    (h : PendingOwnsLive s) : PendingOwnsLive (onScopeChange s idx creating).1 := by
  unfold onScopeChange
  by_cases h0 : (idx == s.currentKnowledgeBase) = true
  · simpa [h0] using h
  · have habort :
        (match s.pending with
          | some id => s.live.filter fun x => x != id
          | none => s.live) = [] := by
      rcases h with h | ⟨id, hp, hl⟩
      · cases s.pending <;> simp [h]
      · simp [hp, hl]
    by_cases h1 : (idx == "" || creating) = true
    · simp only [h0, h1, Bool.false_eq_true, if_false, if_true]
      exact Or.inl (by simpa using habort)
    · simp only [h0, h1, Bool.false_eq_true, if_false]
      refine Or.inr ⟨s.nextId, rfl, ?_⟩
      simpa using congrArg (fun l => l ++ [s.nextId]) habort

/-- Folding any sequence of scope changes from an invariant-satisfying state
stays within the invariant. -/
theorem pendingOwnsLive_run (changes : List ScopeChange) (s : GuardState)
    (h : PendingOwnsLive s) :
    PendingOwnsLive
      (changes.foldl (fun s c => (onScopeChange s c.indexName c.isCreatingMode).1) s) := by
  induction changes generalizing s with
  | nil => exact h
  | cons c rest ih => exact ih _ (pendingOwnsLive_step s c.indexName c.isCreatingMode h)

/-- Claim C1: for every sequence of scope changes delivered to the component, the
state reached from the initial state holds at most one live resolution
request — each change aborts the pending request before starting at most one
new one. -/
theorem c1_at_most_one_in_flight (changes : List ScopeChange) :
    (runScopeChanges changes).live.length ≤ 1 := by
  have h : PendingOwnsLive (runScopeChanges changes) :=
    pendingOwnsLive_run changes initialGuardState (Or.inl rfl)
  rcases h with h | ⟨id, hp, hl⟩
  · simp [h]
  · simp [hl]

/-- Claim C2: a stale resolution completion — one arriving for a scope other than
the current one, or with its cancellation signal set — leaves the component
state exactly as it was (in particular the readiness and loading flags) and
produces no user-visible error. -/
theorem c2_stale_completion_noop (s : GuardState) (idx : String) (aborted : Bool)
    (h : idx ≠ s.currentKnowledgeBase ∨ aborted = true) :
    resolutionComplete s idx aborted = s ∧
    resolutionUserErrors idx aborted s.currentKnowledgeBase = 0 := by
  rcases h with h | h <;>
    simp [resolutionComplete, resolutionUserErrors, fetchKnowledgeBaseInfo, h]

/-- Claim C2 witness: a completion for scope `kb1` arriving while the component is
bound to the empty initial scope changes nothing and shows no error. -/
theorem c2_stale_completion_noop_witness :
    resolutionComplete initialGuardState "kb1" false = initialGuardState ∧
    resolutionUserErrors "kb1" false initialGuardState.currentKnowledgeBase = 0 :=
  c2_stale_completion_noop initialGuardState "kb1" false (Or.inl (by decide))

/-- Claim C5: a scope change to an empty scope, or one arriving in creating-mode,
synchronously sets the readiness flag and clears the loading flag, and
starts zero resolution requests. -/
theorem c5_empty_or_creating_ready (s : GuardState) (idx : String) (creating : Bool)
    (hchange : idx ≠ s.currentKnowledgeBase)
    (h : idx = "" ∨ creating = true) :
    (onScopeChange s idx creating).1.isKnowledgeBaseReady = true ∧
    (onScopeChange s idx creating).1.isLoading = false ∧
    (onScopeChange s idx creating).2 = 0 := by
  rcases h with h | h
  · subst h
    simp [onScopeChange, hchange]
  · simp [onScopeChange, hchange, h]

/-- Claim C5 witness: switching the freshly mounted component to scope `kb1` in
creating-mode is ready, not loading, and starts no request. -/
theorem c5_empty_or_creating_ready_witness :
    (onScopeChange initialGuardState "kb1" true).1.isKnowledgeBaseReady = true ∧
    (onScopeChange initialGuardState "kb1" true).1.isLoading = false ∧
    (onScopeChange initialGuardState "kb1" true).2 = 0 :=
  c5_empty_or_creating_ready initialGuardState "kb1" true (by decide) (Or.inr rfl)

/-- Claim C6 (counterexample to the claim as stated): an upload-completion
transition (`[uploading]` to `[done]`) delivered while the prop scope does
not match the scope ref (and not in creating-mode) fires the parent callback
zero times, not once — the handler discards the change entirely. -/
theorem c6_mismatched_scope_fires_nothing :
    hasUploading [(⟨"f.txt", some FileStatus.uploading, some "raw"⟩ : UploadEntry)] = true ∧
    hasUploading [(⟨"f.txt", some FileStatus.done, some "raw"⟩ : UploadEntry)] = false ∧
    countUploadComplete
      (handleChange false "kbB" "kbA"
        [⟨"f.txt", some FileStatus.uploading, some "raw"⟩]
        [⟨"f.txt", some FileStatus.done, some "raw"⟩]).2 = 0 := by
  decide

/-- Claim C6 (corrected): provided creating-mode holds or the prop scope matches
the scope ref, the handler fires the parent upload-complete callback exactly
once on a transition whose previous list had an uploading entry and whose
new list is non-empty with none uploading, and zero times on every other
transition (so once on `[uploading]` to `[done]`, never on `[]` to
`[uploading]`). -/
theorem c6_upload_complete_detection (creating : Bool) (idx ref : String)
    (prev newList : List UploadEntry)
    (hgate : creating = true ∨ idx = ref) :
    countUploadComplete (handleChange creating idx ref prev newList).2 =
      (if hasUploading prev = true ∧ 0 < newList.length ∧ hasUploading newList = false
       then 1 else 0) := by
  have hg : (creating || idx == ref) = true := by
    rcases hgate with h | h <;> simp [h]
  cases hu : hasUploading prev <;>
    cases hn : hasUploading newList <;>
      by_cases hl : 0 < newList.length <;>
        by_cases hf : 0 < (newList.filterMap fun f => f.originFileObj).length <;>
          simp [handleChange, hg, hu, hn, hl, hf, countUploadComplete]

/-- Claim C6 witness: with matching scope, the `[uploading]` to `[done]`
transition fires the parent callback exactly once. -/
theorem c6_upload_complete_detection_witness :
    countUploadComplete
      (handleChange false "kb" "kb"
        [⟨"f.txt", some FileStatus.uploading, some "raw"⟩]
        [⟨"f.txt", some FileStatus.done, some "raw"⟩]).2 =
      (if hasUploading [(⟨"f.txt", some FileStatus.uploading, some "raw"⟩ : UploadEntry)] = true ∧
          0 < ([(⟨"f.txt", some FileStatus.done, some "raw"⟩ : UploadEntry)]).length ∧
          hasUploading [(⟨"f.txt", some FileStatus.done, some "raw"⟩ : UploadEntry)] = false
       then 1 else 0) :=
  c6_upload_complete_detection false "kb" "kb"
    [⟨"f.txt", some FileStatus.uploading, some "raw"⟩]
    [⟨"f.txt", some FileStatus.done, some "raw"⟩]
    (Or.inr rfl)

/-- Claim C10: the simplified resolution fetch performs no failing work — it emits
the success callback exactly when the abort signal is clear and the
requested scope equals the current scope ref, and emits nothing otherwise;
the `onError` callback and the user-visible notification of its dead `catch`
handler never fire. -/
theorem c10_resolution_never_fails (idx : String) (aborted : Bool)
    (currentRef : String) :
    (fetchKnowledgeBaseInfo idx aborted currentRef =
      if aborted = false ∧ idx = currentRef then [FetchEvent.success] else []) ∧
    FetchEvent.failure ∉ fetchKnowledgeBaseInfo idx aborted currentRef ∧
    FetchEvent.userError ∉ fetchKnowledgeBaseInfo idx aborted currentRef := by
  refine ⟨?_, ?_, ?_⟩ <;>
  · by_cases h1 : aborted = true <;> by_cases h2 : idx = currentRef <;>
      simp [fetchKnowledgeBaseInfo, h1, h2]

end Nexent
